import Mathlib

/-!
Verification of `src/remote_sensing/utils.py` (`add_ee_layer`).

The repository consists of one function that bridges the Google Earth
Engine client (`ee`) and the folium map-widget library: it requests a
map-id descriptor for an image, builds a tile layer from the descriptor's
URL template and attaches the layer to a caller-supplied folium map.

The external libraries are modelled shallowly:
  * the Earth Engine call `ee.Image(obj).getMapId(vis_params)` is an
    abstract service function `String → VisParams → Except String MapIdDict`
    passed as a parameter (it may fail, which in Python is an exception);
  * a folium map is its ordered collection of layers;
  * `folium.raster_layers.TileLayer(...)` is a record of the constructor
    arguments that the source supplies.
-/

/-- Visualization parameters: an opaque Python `dict`, modelled as an
association list.  The source passes it through verbatim. -/
abbrev VisParams : Type := List (String × String)

/-- The `tile_fetcher` object inside the map-id descriptor returned by the
imagery service; the source reads its `url_format` field (line 25). -/
structure TileFetcher where
  url_format : String
deriving DecidableEq, Repr

/-- The map-id descriptor returned by `getMapId`; the source reads
`map_id_dict["tile_fetcher"]` (line 25). -/
structure MapIdDict where
  tile_fetcher : TileFetcher
deriving DecidableEq, Repr

/-- A folium tile layer, holding exactly the constructor arguments that the
source supplies at lines 24-30: `tiles`, `attr`, `name`, `overlay`,
`control`. -/
structure TileLayer where
  tiles : String
  attr : String
  layer_name : String
  overlay : Bool
  control : Bool
deriving DecidableEq, Repr

/-- A folium map widget, modelled (per the spec's description of the
map-widget capability) as its ordered layer collection; `add_to` appends. -/
structure FoliumMap where
  layers : List TileLayer
deriving DecidableEq, Repr

/-- The abstract imagery service: `ee.Image(x).getMapId(vis_params)`.
A Python exception is an `Except.error` carrying the exception text. -/
def EEService : Type := String → VisParams → Except String MapIdDict

/-- The `ee.Image(...)` constructor applied to an already-constructed image
reference (line 21 of the source re-wraps its argument); on an existing
image reference this is the identity. -/
def ee_Image (img : String) : String := img

/-- The fixed attribution string hard-coded at line 26 of the source. -/
def attributionString : String :=
  "Map Data &copy; <a href=\"https://earthengine.google.com/\">Google Earth Engine</a>"

/-- `add_ee_layer` from `src/remote_sensing/utils.py`, faithful to the
source: request the map id for the image with the visualization
parameters (line 21), build a `TileLayer` from the descriptor's URL
template with the fixed attribution, given name, `overlay=True`,
`control=True` (lines 24-30), and add it to the map (line 33).  A service
failure propagates (in Python the exception aborts the call before any
layer is built). -/
def add_ee_layer (getMapId : EEService) (map_widget : FoliumMap)
    (ee_image_object : String) (vis_params : VisParams) (name : String) :
    Except String FoliumMap :=
  match getMapId (ee_Image ee_image_object) vis_params with
  | Except.error e => Except.error e
  | Except.ok map_id_dict =>
      let tile_layer : TileLayer :=
        { tiles := map_id_dict.tile_fetcher.url_format
          attr := attributionString
          layer_name := name
          overlay := true
          control := true }
      Except.ok { layers := map_widget.layers ++ [tile_layer] }

/-- External interactions performed by `add_ee_layer`: a request to the
imagery service (line 21) or a mutation of the map widget (line 33). -/
inductive Event where
  | serviceCall (img : String) (vp : VisParams)
  | mutateMapWidget
deriving DecidableEq, Repr

def Event.isServiceCall : Event → Bool
  | Event.serviceCall _ _ => true
  | _ => false

def Event.isMutation : Event → Bool
  | Event.mutateMapWidget => true
  | _ => false

/-- `add_ee_layer` instrumented with the list of external interactions it
performs, in order.  The source issues exactly one service request
(line 21) and, if that returns, one widget mutation (line 33); on a
service exception the function aborts before touching the widget. -/
def add_ee_layer_trace (getMapId : EEService) (map_widget : FoliumMap)
    (ee_image_object : String) (vis_params : VisParams) (name : String) :
    Except String FoliumMap × List Event :=
  match getMapId (ee_Image ee_image_object) vis_params with
  | Except.error e =>
      (Except.error e, [Event.serviceCall (ee_Image ee_image_object) vis_params])
  | Except.ok map_id_dict =>
      let tile_layer : TileLayer :=
        { tiles := map_id_dict.tile_fetcher.url_format
          attr := attributionString
          layer_name := name
          overlay := true
          control := true }
      (Except.ok { layers := map_widget.layers ++ [tile_layer] },
       [Event.serviceCall (ee_Image ee_image_object) vis_params,
        Event.mutateMapWidget])

/-- The four caller-owned argument objects of `add_ee_layer`, modelling
Python reference semantics: any in-place write by the function would show
up as a changed field. -/
structure ArgStore where
  map_widget : FoliumMap
  ee_image_object : String
  vis_params : VisParams
  name : String
deriving DecidableEq, Repr

/-- `add_ee_layer` acting on the caller's argument objects: returns the
state of the four arguments after the call, together with the outcome
(`Except.ok ()` models the Python `return None`, `Except.error e` a raised
exception).  The source mutates `map_widget` in place (line 33) and never
assigns to or mutates `ee_image_object`, `vis_params` or `name`; when the
service raises (line 21) the function aborts before touching anything. -/
def add_ee_layer_store (getMapId : EEService) (s : ArgStore) :
    ArgStore × Except String Unit :=
  match getMapId (ee_Image s.ee_image_object) s.vis_params with
  | Except.error e => (s, Except.error e)
  | Except.ok map_id_dict =>
      let tile_layer : TileLayer :=
        { tiles := map_id_dict.tile_fetcher.url_format
          attr := attributionString
          layer_name := s.name
          overlay := true
          control := true }
      ({ s with map_widget := { layers := s.map_widget.layers ++ [tile_layer] } },
       Except.ok ())

/-- Retrieval of a layer from the widget by display name, per the spec's
map-widget capability ("layer collection", layers "retrievable by name"):
first layer whose name matches. -/
def find_layer_by_name (m : FoliumMap) (n : String) : Option TileLayer :=
  m.layers.find? (fun l => l.layer_name == n)

/-- The operations defined (and hence exposed) by
`src/remote_sensing/utils.py`: the module defines exactly one function,
`add_ee_layer(map_widget, ee_image_object, vis_params, name) -> None`. -/
structure OperationSig where
  op_name : String
  params : List String
  returns : String
deriving DecidableEq, Repr

def exposed_operations : List OperationSig :=
  [{ op_name := "add_ee_layer"
     params := ["map_widget", "ee_image_object", "vis_params", "name"]
     returns := "None" }]

/-- A concrete always-succeeding imagery service for witnesses. -/
def demoMapIdDict : MapIdDict :=
  { tile_fetcher := { url_format := "https://earthengine.googleapis.com/v1/demo/tiles" } }

def demoService : EEService := fun _ _ => Except.ok demoMapIdDict

/-- A concrete failing imagery service (e.g. an invalid image reference:
`ee.Image('bogus').getMapId(...)` raises `EEException`). -/
def failingService : EEService := fun _ _ => Except.error "EEException: Image.load: asset not found"

def emptyFoliumMap : FoliumMap := { layers := [] }

/-- The tile layer that a successful call against `demoService` builds. -/
def demoLayer (n : String) : TileLayer :=
  { tiles := demoMapIdDict.tile_fetcher.url_format
    attr := attributionString
    layer_name := n
    overlay := true
    control := true }

/-- C1: for every successful imagery-service response containing URL
template `T`, the layer added to the map widget carries URL template
exactly `T`, the fixed attribution string, the caller-supplied name, and
both the overlay flag and the control flag set to `true`. -/
theorem C1_layer_fields (g : EEService) (m : FoliumMap) (i : String)
    (v : VisParams) (n T : String) (d : MapIdDict)
    (hok : g (ee_Image i) v = Except.ok d)
    (hT : d.tile_fetcher.url_format = T) :
    ∃ l : TileLayer,
      add_ee_layer g m i v n = Except.ok { layers := m.layers ++ [l] } ∧
      l.tiles = T ∧ l.attr = attributionString ∧ l.layer_name = n ∧
      l.overlay = true ∧ l.control = true := by
  subst hT
  refine ⟨{ tiles := d.tile_fetcher.url_format, attr := attributionString,
            layer_name := n, overlay := true, control := true },
          ?_, rfl, rfl, rfl, rfl, rfl⟩
  unfold add_ee_layer
  rw [hok]

/-- C1 witness at concrete inputs. -/
theorem C1_layer_fields_witness :
    ∃ l : TileLayer,
      add_ee_layer demoService emptyFoliumMap "img" [] "ndvi" =
        Except.ok { layers := emptyFoliumMap.layers ++ [l] } ∧
      l.tiles = "https://earthengine.googleapis.com/v1/demo/tiles" ∧
      l.attr = attributionString ∧ l.layer_name = "ndvi" ∧
      l.overlay = true ∧ l.control = true :=
  C1_layer_fields demoService emptyFoliumMap "img" [] "ndvi"
    "https://earthengine.googleapis.com/v1/demo/tiles" demoMapIdDict rfl rfl

/-- C2: when the imagery-service request fails, the failure propagates
unchanged to the caller, the arguments (map widget included) are exactly
what they were before the call, and no map-widget mutation occurs. -/
theorem C2_error_propagation (g : EEService) (m : FoliumMap) (i : String)
    (v : VisParams) (n : String) (e : String)
    (herr : g (ee_Image i) v = Except.error e) :
    add_ee_layer g m i v n = Except.error e ∧
    add_ee_layer_store g ⟨m, i, v, n⟩ = (⟨m, i, v, n⟩, Except.error e) ∧
    (add_ee_layer_trace g m i v n).2.countP Event.isMutation = 0 := by
  refine ⟨?_, ?_, ?_⟩
  · unfold add_ee_layer
    rw [herr]
  · unfold add_ee_layer_store
    simp only []
    rw [herr]
  · unfold add_ee_layer_trace
    rw [herr]
    rfl

/-- C2 witness at a concrete failing service. -/
theorem C2_error_propagation_witness :
    add_ee_layer failingService emptyFoliumMap "bogus" [] "L" =
      Except.error "EEException: Image.load: asset not found" ∧
    add_ee_layer_store failingService ⟨emptyFoliumMap, "bogus", [], "L"⟩ =
      (⟨emptyFoliumMap, "bogus", [], "L"⟩,
       Except.error "EEException: Image.load: asset not found") ∧
    (add_ee_layer_trace failingService emptyFoliumMap "bogus" [] "L").2.countP
      Event.isMutation = 0 :=
  C2_error_propagation failingService emptyFoliumMap "bogus" [] "L"
    "EEException: Image.load: asset not found" rfl

/-- C3: for every successful call, whatever the visualization parameters,
the layer count afterwards is the layer count before plus exactly one. -/
theorem C3_layer_count (g : EEService) (m : FoliumMap) (i : String)
    (v : VisParams) (n : String) (m2 : FoliumMap)
    (hok : add_ee_layer g m i v n = Except.ok m2) :
    m2.layers.length = m.layers.length + 1 := by
  unfold add_ee_layer at hok
  cases hg : g (ee_Image i) v with
  | error e =>
      rw [hg] at hok
      cases hok
  | ok d =>
      rw [hg] at hok
      simp only [Except.ok.injEq] at hok
      subst hok
      simp

/-- C3 witness at concrete inputs. -/
theorem C3_layer_count_witness :
    (FoliumMap.mk [demoLayer "L"]).layers.length =
      emptyFoliumMap.layers.length + 1 :=
  C3_layer_count demoService emptyFoliumMap "img" [] "L"
    (FoliumMap.mk [demoLayer "L"]) rfl

/-- If the widget contains a layer with display name `n`, lookup by `n`
retrieves a layer with that name. -/
theorem find_layer_of_mem (m : FoliumMap) (n : String) (l : TileLayer)
    (hl : l ∈ m.layers) (hn : l.layer_name = n) :
    ∃ la, find_layer_by_name m n = some la ∧ la.layer_name = n := by
  have hs : (find_layer_by_name m n).isSome := by
    unfold find_layer_by_name
    exact List.find?_isSome.mpr ⟨l, hl, by simp [hn]⟩
  obtain ⟨la, hla⟩ := Option.isSome_iff_exists.mp hs
  have hla2 : m.layers.find? (fun x => x.layer_name == n) = some la := hla
  have hp : (la.layer_name == n) = true :=
    @List.find?_some _ (fun x => x.layer_name == n) la m.layers hla2
  exact ⟨la, hla, eq_of_beq hp⟩

/-- C4: two successful calls on the same map widget with different layer
names yield two distinct layers appended to the widget, and a layer with
each of the two names is retrievable from the widget by that name. -/
theorem C4_two_named_layers (g1 g2 : EEService) (m m1 m2 : FoliumMap)
    (i1 i2 : String) (v1 v2 : VisParams) (n1 n2 : String)
    (h1 : add_ee_layer g1 m i1 v1 n1 = Except.ok m1)
    (h2 : add_ee_layer g2 m1 i2 v2 n2 = Except.ok m2)
    (hne : n1 ≠ n2) :
    ∃ l1 l2 : TileLayer,
      m2.layers = m.layers ++ [l1, l2] ∧ l1 ≠ l2 ∧
      l1 ∈ m2.layers ∧ l2 ∈ m2.layers ∧
      l1.layer_name = n1 ∧ l2.layer_name = n2 ∧
      (∃ la, find_layer_by_name m2 n1 = some la ∧ la.layer_name = n1) ∧
      (∃ lb, find_layer_by_name m2 n2 = some lb ∧ lb.layer_name = n2) := by
  unfold add_ee_layer at h1 h2
  cases hg1 : g1 (ee_Image i1) v1 with
  | error e => rw [hg1] at h1; cases h1
  | ok d1 =>
  rw [hg1] at h1
  simp only [Except.ok.injEq] at h1
  subst h1
  cases hg2 : g2 (ee_Image i2) v2 with
  | error e => rw [hg2] at h2; cases h2
  | ok d2 =>
  rw [hg2] at h2
  simp only [Except.ok.injEq] at h2
  subst h2
  refine ⟨{ tiles := d1.tile_fetcher.url_format, attr := attributionString,
            layer_name := n1, overlay := true, control := true },
          { tiles := d2.tile_fetcher.url_format, attr := attributionString,
            layer_name := n2, overlay := true, control := true },
          by simp, ?_, by simp, by simp, rfl, rfl, ?_, ?_⟩
  · intro h
    exact hne (congrArg TileLayer.layer_name h)
  · exact find_layer_of_mem _ n1
      { tiles := d1.tile_fetcher.url_format, attr := attributionString,
        layer_name := n1, overlay := true, control := true } (by simp) rfl
  · exact find_layer_of_mem _ n2
      { tiles := d2.tile_fetcher.url_format, attr := attributionString,
        layer_name := n2, overlay := true, control := true } (by simp) rfl

/-- C4 witness: two concrete successful calls with names "a" and "b". -/
theorem C4_two_named_layers_witness :
    ∃ l1 l2 : TileLayer,
      (FoliumMap.mk [demoLayer "a", demoLayer "b"]).layers =
        emptyFoliumMap.layers ++ [l1, l2] ∧ l1 ≠ l2 ∧
      l1 ∈ (FoliumMap.mk [demoLayer "a", demoLayer "b"]).layers ∧
      l2 ∈ (FoliumMap.mk [demoLayer "a", demoLayer "b"]).layers ∧
      l1.layer_name = "a" ∧ l2.layer_name = "b" ∧
      (∃ la, find_layer_by_name (FoliumMap.mk [demoLayer "a", demoLayer "b"]) "a" =
          some la ∧ la.layer_name = "a") ∧
      (∃ lb, find_layer_by_name (FoliumMap.mk [demoLayer "a", demoLayer "b"]) "b" =
          some lb ∧ lb.layer_name = "b") :=
  C4_two_named_layers demoService demoService emptyFoliumMap
    (FoliumMap.mk [demoLayer "a"]) (FoliumMap.mk [demoLayer "a", demoLayer "b"])
    "img1" "img2" [] [] "a" "b" rfl rfl (by decide)

/-- C5: the visualization-parameters mapping is handed to the imagery
service verbatim (the single service request carries exactly the supplied
mapping), the function itself performs no validation (it errors exactly
when, and with exactly what, the service errors), and an empty mapping
raises no error at this layer when the service accepts it. -/
theorem C5_verbatim_unvalidated (g : EEService) (m : FoliumMap) (i : String)
    (v : VisParams) (n : String) :
    ((add_ee_layer_trace g m i v n).2.head? =
        some (Event.serviceCall (ee_Image i) v)) ∧
    (∀ e, add_ee_layer g m i v n = Except.error e ↔
        g (ee_Image i) v = Except.error e) ∧
    (∀ d, g (ee_Image i) [] = Except.ok d →
        ∃ m2, add_ee_layer g m i [] n = Except.ok m2) := by
  refine ⟨?_, ?_, ?_⟩
  · unfold add_ee_layer_trace
    cases g (ee_Image i) v <;> rfl
  · intro e
    unfold add_ee_layer
    cases hg : g (ee_Image i) v with
    | error e2 => simp
    | ok d => simp
  · intro d hd
    unfold add_ee_layer
    rw [hd]
    exact ⟨_, rfl⟩

/-- C5 witness: with the demo service and an empty mapping, the call
succeeds and the service request carries the empty mapping verbatim. -/
theorem C5_verbatim_unvalidated_witness :
    ((add_ee_layer_trace demoService emptyFoliumMap "img" [] "L").2.head? =
        some (Event.serviceCall (ee_Image "img") [])) ∧
    (∃ m2, add_ee_layer demoService emptyFoliumMap "img" [] "L" = Except.ok m2) :=
  ⟨(C5_verbatim_unvalidated demoService emptyFoliumMap "img" [] "L").1,
   (C5_verbatim_unvalidated demoService emptyFoliumMap "img" [] "L").2.2
     demoMapIdDict rfl⟩

/-- C6: the function's whole effect is on the map widget: on success the
widget's layer list is exactly the old list with one layer appended, the
call's outcome value carries no other payload than the mutated widget, and
every external interaction in any run is either the imagery-service
request or the single map-widget mutation (no other process-wide or
persistent state is touched). -/
theorem C6_effect_is_append_only (g : EEService) (m m2 : FoliumMap)
    (i : String) (v : VisParams) (n : String)
    (hok : add_ee_layer g m i v n = Except.ok m2) :
    (∃ l, m2.layers = m.layers ++ [l]) ∧
    (∀ ev ∈ (add_ee_layer_trace g m i v n).2,
        Event.isServiceCall ev = true ∨ ev = Event.mutateMapWidget) := by
  constructor
  · unfold add_ee_layer at hok
    cases hg : g (ee_Image i) v with
    | error e => rw [hg] at hok; cases hok
    | ok d =>
        rw [hg] at hok
        simp only [Except.ok.injEq] at hok
        subst hok
        exact ⟨_, rfl⟩
  · intro ev hev
    unfold add_ee_layer_trace at hev
    cases hg : g (ee_Image i) v with
    | error e =>
        rw [hg] at hev
        simp only [List.mem_singleton] at hev
        subst hev
        exact Or.inl rfl
    | ok d =>
        rw [hg] at hev
        simp only [List.mem_cons, List.mem_singleton] at hev
        rcases hev with h | h | h
        · subst h; exact Or.inl rfl
        · subst h; exact Or.inr rfl
        · cases h

/-- C6 witness at concrete inputs. -/
theorem C6_effect_is_append_only_witness :
    (∃ l, (FoliumMap.mk [demoLayer "L"]).layers = emptyFoliumMap.layers ++ [l]) ∧
    (∀ ev ∈ (add_ee_layer_trace demoService emptyFoliumMap "img" [] "L").2,
        Event.isServiceCall ev = true ∨ ev = Event.mutateMapWidget) :=
  C6_effect_is_append_only demoService emptyFoliumMap (FoliumMap.mk [demoLayer "L"])
    "img" [] "L" rfl

/-- C7 counterexample: when the imagery-service request fails (here a
concrete failing service standing for an invalid image reference), the
invocation performs zero map-widget mutations, so it is not the case that
every invocation performs exactly one mutation of the map widget. -/
theorem C7_counterexample_no_mutation_on_failure :
    ¬ ((add_ee_layer_trace failingService emptyFoliumMap "bogus" [] "L").2.countP
        Event.isMutation = 1) := by
  decide

/-- C7 as amended: every invocation issues exactly one imagery-service
request; a successful invocation performs exactly one map-widget mutation
while a failing one performs none; and every external interaction is one
of those two kinds (the call chain is a direct composition with no other
external calls). -/
theorem C7_single_call_single_mutation (g : EEService) (m : FoliumMap)
    (i : String) (v : VisParams) (n : String) :
    (add_ee_layer_trace g m i v n).2.countP Event.isServiceCall = 1 ∧
    (∀ m2, (add_ee_layer_trace g m i v n).1 = Except.ok m2 →
        (add_ee_layer_trace g m i v n).2.countP Event.isMutation = 1) ∧
    (∀ e, (add_ee_layer_trace g m i v n).1 = Except.error e →
        (add_ee_layer_trace g m i v n).2.countP Event.isMutation = 0) ∧
    (∀ ev ∈ (add_ee_layer_trace g m i v n).2,
        Event.isServiceCall ev = true ∨ Event.isMutation ev = true) := by
  unfold add_ee_layer_trace
  cases hg : g (ee_Image i) v with
  | error e =>
      refine ⟨rfl, ?_, ?_, ?_⟩
      · intro m2 h
        cases h
      · intro e2 h
        rfl
      · intro ev hev
        simp only [List.mem_singleton] at hev
        subst hev
        exact Or.inl rfl
  | ok d =>
      refine ⟨rfl, ?_, ?_, ?_⟩
      · intro m2 h
        rfl
      · intro e2 h
        cases h
      · intro ev hev
        simp only [List.mem_cons, List.mem_singleton] at hev
        rcases hev with h | h | h
        · subst h; exact Or.inl rfl
        · subst h; exact Or.inr rfl
        · cases h

/-- C7 witness: at a concrete successful call there is exactly one service
request and exactly one widget mutation. -/
theorem C7_single_call_single_mutation_witness :
    (add_ee_layer_trace demoService emptyFoliumMap "img" [] "L").2.countP
        Event.isServiceCall = 1 ∧
    (add_ee_layer_trace demoService emptyFoliumMap "img" [] "L").2.countP
        Event.isMutation = 1 :=
  ⟨(C7_single_call_single_mutation demoService emptyFoliumMap "img" [] "L").1,
   (C7_single_call_single_mutation demoService emptyFoliumMap "img" [] "L").2.1
     (FoliumMap.mk [demoLayer "L"]) rfl⟩

/-- C8 counterexample: the module's single exposed operation is named
`add_ee_layer`, not `add_layer`, and its second parameter is
`ee_image_object`, not `image_reference`. -/
theorem C8_counterexample_operation_name :
    exposed_operations.map OperationSig.op_name = ["add_ee_layer"] ∧
    ("add_ee_layer" : String) ≠ "add_layer" ∧
    exposed_operations.map OperationSig.params =
      [["map_widget", "ee_image_object", "vis_params", "name"]] ∧
    (["map_widget", "ee_image_object", "vis_params", "name"] :
        List String) ≠ ["map_widget", "image_reference", "vis_params", "name"] := by
  refine ⟨rfl, ?_, rfl, ?_⟩ <;> decide

/-- C8 as amended: the component exposes exactly one operation, named
`add_ee_layer`, with parameter list
`(map_widget, ee_image_object, vis_params, name)` and `None` (void)
return type. -/
theorem C8_exposed_signature :
    exposed_operations.length = 1 ∧
    exposed_operations =
      [{ op_name := "add_ee_layer"
         params := ["map_widget", "ee_image_object", "vis_params", "name"]
         returns := "None" }] :=
  ⟨rfl, rfl⟩

/-- C9: among the four argument objects, only the map widget is ever
written: after any call (successful or failing), the image reference, the
visualization parameters and the name are identical to what the caller
passed in. -/
theorem C9_other_arguments_unchanged (g : EEService) (s : ArgStore) :
    (add_ee_layer_store g s).1.ee_image_object = s.ee_image_object ∧
    (add_ee_layer_store g s).1.vis_params = s.vis_params ∧
    (add_ee_layer_store g s).1.name = s.name := by
  unfold add_ee_layer_store
  cases g (ee_Image s.ee_image_object) s.vis_params <;> exact ⟨rfl, rfl, rfl⟩

/-- C10: the function is deterministic: its result and its whole external
interaction trace are a function of the arguments and of the imagery
service's response to the single request made; two runs in which that
response is the same produce the same layer list and the same trace. -/
theorem C10_deterministic (g g2 : EEService) (m : FoliumMap) (i : String)
    (v : VisParams) (n : String)
    (hresp : g (ee_Image i) v = g2 (ee_Image i) v) :
    add_ee_layer g m i v n = add_ee_layer g2 m i v n ∧
    add_ee_layer_trace g m i v n = add_ee_layer_trace g2 m i v n := by
  constructor
  · unfold add_ee_layer
    rw [hresp]
  · unfold add_ee_layer_trace
    rw [hresp]

/-- C10 witness at concrete inputs (two runs against services agreeing on
the response). -/
theorem C10_deterministic_witness :
    add_ee_layer demoService emptyFoliumMap "img" [] "L" =
      add_ee_layer (fun _ _ => Except.ok demoMapIdDict) emptyFoliumMap "img" [] "L" ∧
    add_ee_layer_trace demoService emptyFoliumMap "img" [] "L" =
      add_ee_layer_trace (fun _ _ => Except.ok demoMapIdDict) emptyFoliumMap "img" [] "L" :=
  C10_deterministic demoService (fun _ _ => Except.ok demoMapIdDict)
    emptyFoliumMap "img" [] "L" rfl
